import Mathlib

/-!
A shallow embedding of the HRMS backend (src/main.py, src/schemas.py).

The MongoDB collections become typed lists inside a `DB` state; `find_one`
becomes `List.find?` (first match in insertion order), `insert_one` appends,
`update_one` with a `$set` document rewrites the first matching record.
Python floats are modelled as integers — every amount the spec and its
examples discuss is integral, and Python float addition/subtraction on such
values (below 2^53) is exact — datetimes as integer timestamps and
calendar dates as year/month/day triples compared lexicographically.
Endpoint handlers become pure functions `DB → ... → Except Err α × DB`; an
HTTPException or a pydantic ValidationError becomes the `Except.error` case
and leaves the state unchanged.

The document-store adapter (`database.create_document` / `get_documents`) is
imported by src/main.py but its module is not part of src/; those two
operations are modelled from the spec (section 4.1), as noted on their
definitions below.
-/

namespace HRMS

/-- Errors surfaced by a request: an HTTPException with status code and
detail, or a pydantic ValidationError (surfaced as a server error). -/
inductive Err where
  | http (code : Nat) (detail : String)
  | validation (msg : String)
deriving DecidableEq

/-- A Python `datetime.date`: calendar date as year/month/day. -/
structure PyDate where
  year : Int
  month : Int
  day : Int
deriving DecidableEq

/-- Strict calendar order on dates (lexicographic on year, month, day),
matching both Python date comparison and the store's `$lt`. -/
def PyDate.ltb (a b : PyDate) : Bool :=
  a.year < b.year ||
    (a.year == b.year &&
      (a.month < b.month || (a.month == b.month && a.day < b.day)))

/-- Non-strict calendar order on dates, matching the store's `$gte`. -/
def PyDate.leb (a b : PyDate) : Bool :=
  PyDate.ltb a b || a == b

/-- `datetime(year, month, 1)` from src/main.py line 181-182: Python datetime
construction requires 1 <= year <= 9999 and 1 <= month <= 12, raising
ValueError otherwise.  The day is always 1 there. -/
def mkMonthStart (y m : Int) : Option PyDate :=
  if 1 ≤ y ∧ y ≤ 9999 ∧ 1 ≤ m ∧ m ≤ 12 then some ⟨y, m, 1⟩ else none

/-- schemas.User: one document of the `user` collection, together with its
store-assigned `_id` (exposed as a string). -/
structure UserDoc where
  id : String
  name : String
  email : String
  role : String
  password_hash : String
  is_active : Bool
deriving DecidableEq

/-- schemas.Session: one document of the `session` collection. -/
structure SessionDoc where
  user_id : String
  token : String
  expires_at : Int
deriving DecidableEq

/-- schemas.BankDetails. -/
structure BankDetails where
  account_holder : Option String
  account_number : Option String
  ifsc : Option String
  bank_name : Option String
  branch : Option String
deriving DecidableEq

/-- schemas.StatutoryAccounts. -/
structure StatutoryAccounts where
  pf_number : Option String
  uan : Option String
  esi_number : Option String
  pan : Option String
deriving DecidableEq

/-- schemas.SalaryStructure; the five float fields become integers. -/
structure SalaryStructure where
  basic : Int
  hra : Int
  special_allowance : Int
  other_earnings : Int
  deductions : Int
deriving DecidableEq

/-- schemas.Employee: one document of the `employee` collection. -/
structure EmployeeDoc where
  id : String
  user_id : String
  department_id : Option String
  designation : Option String
  join_date : Option PyDate
  work_email : Option String
  phone : Option String
  address : Option String
  bank : Option BankDetails
  statutory : Option StatutoryAccounts
  salary : Option SalaryStructure
deriving DecidableEq

/-- schemas.Attendance: one document of the `attendance` collection. -/
structure AttendanceDoc where
  id : String
  user_id : String
  date : PyDate
  status : String
  check_in : Option Int
  check_out : Option Int
deriving DecidableEq

/-- schemas.LeaveRequest: one document of the `leaverequest` collection. -/
structure LeaveDoc where
  id : String
  user_id : String
  start_date : PyDate
  end_date : PyDate
  leave_type : String
  reason : Option String
  status : String
  approver_id : Option String
deriving DecidableEq

/-- schemas.PayrollItem: one earning or deduction line item. -/
structure PayrollItem where
  label : String
  amount : Int
deriving DecidableEq

/-- schemas.Payroll: one document of the `payroll` collection. -/
structure PayrollDoc where
  id : String
  user_id : String
  month : Int
  year : Int
  earnings : List PayrollItem
  deductions : List PayrollItem
  gross : Int
  net : Int
  generated_by : Option String
  status : String
deriving DecidableEq

/-- The whole document store: one list per collection, documents in
insertion order, plus a counter from which fresh identifiers are drawn.
(The `department` collection is omitted: no claim touches it.) -/
structure DB where
  users : List UserDoc
  sessions : List SessionDoc
  employees : List EmployeeDoc
  attendance : List AttendanceDoc
  leaves : List LeaveDoc
  payrolls : List PayrollDoc
  nextOid : Nat
deriving DecidableEq

/-- Modelled from the spec (section 4.1): the document-store adapter in the
absent `database` module assigns every created record a store-assigned
unique identifier, returned to callers as a plain string.  We draw it from
the state's counter. -/
def freshId (db : DB) : String :=
  "oid" ++ toString db.nextOid

/-- db.user.find_one with an email filter: first user whose email matches. -/
def findUserByEmail (db : DB) (email : String) : Option UserDoc :=
  db.users.find? (fun u => u.email == email)

/-- db.user.find_one with an `_id` filter: first user whose id matches. -/
def findUserById (db : DB) (uid : String) : Option UserDoc :=
  db.users.find? (fun u => u.id == uid)

/-- db.session.find_one with a token filter: first session whose token
matches. -/
def findSessionByToken (db : DB) (tok : String) : Option SessionDoc :=
  db.sessions.find? (fun s => s.token == tok)

/-- db.employee.find_one with a user_id filter: first employee profile whose
user reference matches. -/
def findEmployeeByUser (db : DB) (uid : String) : Option EmployeeDoc :=
  db.employees.find? (fun e => e.user_id == uid)

/-- src/main.py `get_user_by_token`: the empty token is refused outright
(Python truthiness of `if not token`); otherwise the session is looked up by
token and then the user by the session's user reference.  `expires_at` is
never consulted. -/
def get_user_by_token (db : DB) (token : String) : Option UserDoc :=
  if token == "" then none
  else
    match findSessionByToken db token with
    | none => none
    | some s => findUserById db s.user_id

/-- The response model of src/main.py `login`. -/
structure LoginResponse where
  token : String
  role : String
  name : String
  user_id : String
deriving DecidableEq

/-- src/main.py `login`: looks the user up by email, compares the stored
`password_hash` byte-for-byte with the supplied password, and on success
stores a session expiring 7 days (604800 seconds) from now.  The random
token and the current time are passed in as parameters. -/
def login (db : DB) (email password : String) (token : String) (now : Int) :
    Except Err LoginResponse × DB :=
  match findUserByEmail db email with
  | none => (Except.error (Err.http 401 "Invalid credentials"), db)
  | some u =>
    if u.password_hash ≠ password then
      (Except.error (Err.http 401 "Invalid credentials"), db)
    else
      let sess : SessionDoc := ⟨u.id, token, now + 604800⟩
      (Except.ok ⟨token, u.role, u.name, u.id⟩,
        { db with sessions := db.sessions ++ [sess] })

/-- The employee profile created by `Employee(user_id=user_id)`: every
optional field defaults to None. -/
def emptyEmployee (id uid : String) : EmployeeDoc :=
  { id := id, user_id := uid, department_id := none, designation := none,
    join_date := none, work_email := none, phone := none, address := none,
    bank := none, statutory := none, salary := none }

/-- src/main.py `create_user`: rejects a duplicate email with a 400, then
creates the user (via the spec-modelled adapter) and, when the role is
"employee", additionally creates an empty employee profile referencing the
new user. -/
def create_user (db : DB) (name email role password : String) :
    Except Err String × DB :=
  if (findUserByEmail db email).isSome then
    (Except.error (Err.http 400 "Email already exists"), db)
  else
    let uid := freshId db
    let u : UserDoc := ⟨uid, name, email, role, password, true⟩
    let db1 : DB :=
      { db with users := db.users ++ [u], nextOid := db.nextOid + 1 }
    if role == "employee" then
      let emp := emptyEmployee (freshId db1) uid
      (Except.ok uid,
        { db1 with employees := db1.employees ++ [emp],
                   nextOid := db1.nextOid + 1 })
    else
      (Except.ok uid, db1)

/-- src/main.py EmployeeUpdateRequest: each field is `none` both when the
caller omitted it (`exclude_unset=True`) and when the caller sent an
explicit null (the `v is not None` filter); only `some` fields enter the
`$set` document. -/
structure EmployeeUpdateRequest where
  designation : Option String
  department_id : Option String
  work_email : Option String
  phone : Option String
  address : Option String
  bank : Option BankDetails
  statutory : Option StatutoryAccounts
  salary : Option SalaryStructure
deriving DecidableEq

/-- `some`-biased choice: the value the `$set` leaves in a field that held
`b` when the update document carries `a`. -/
def ovr {α : Type} (a b : Option α) : Option α :=
  match a with
  | some v => some v
  | none => b

/-- Effect of `$set` with the non-null fields of the request on one employee
document: supplied fields are overwritten, everything else is untouched. -/
def applySet (e : EmployeeDoc) (r : EmployeeUpdateRequest) : EmployeeDoc :=
  { e with
    designation := ovr r.designation e.designation,
    department_id := ovr r.department_id e.department_id,
    work_email := ovr r.work_email e.work_email,
    phone := ovr r.phone e.phone,
    address := ovr r.address e.address,
    bank := ovr r.bank e.bank,
    statutory := ovr r.statutory e.statutory,
    salary := ovr r.salary e.salary }

/-- `update_one` on the employee collection: rewrites the first document
matching the user reference, reporting whether a match was found. -/
def setFirstEmployee (l : List EmployeeDoc) (uid : String)
    (r : EmployeeUpdateRequest) : List EmployeeDoc × Bool :=
  match l with
  | [] => ([], false)
  | e :: rest =>
    if e.user_id == uid then (applySet e r :: rest, true)
    else
      let p := setFirstEmployee rest uid r
      (e :: p.1, p.2)

/-- src/main.py `update_employee`: creates an empty profile when none exists
for the user, then applies `update_one` with `$set` of the non-null supplied
fields and `upsert=True` (the upsert branch builds a fresh document from the
filter plus the `$set` fields). -/
def update_employee (db : DB) (uid : String) (r : EmployeeUpdateRequest) :
    Except Err Bool × DB :=
  let db1 : DB :=
    if (findEmployeeByUser db uid).isSome then db
    else
      { db with employees := db.employees ++ [emptyEmployee (freshId db) uid],
                nextOid := db.nextOid + 1 }
  let p := setFirstEmployee db1.employees uid r
  if p.2 then
    (Except.ok true, { db1 with employees := p.1 })
  else
    (Except.ok true,
      { db1 with
          employees :=
            db1.employees ++ [applySet (emptyEmployee (freshId db1) uid) r],
          nextOid := db1.nextOid + 1 })

/-- src/main.py `get_attendance`: the query always filters on the user; a
date-range filter is added only when `month and year` is truthy in Python,
i.e. both were supplied and neither is 0.  The range is
`[datetime(year, month, 1), datetime(year-or-next, next-month, 1))`, and an
out-of-range datetime construction raises.  Listing goes through the
spec-modelled adapter `get_documents`. -/
def get_attendance (db : DB) (uid : String) (month year : Option Int) :
    Except Err (List AttendanceDoc) × DB :=
  match month, year with
  | some m, some y =>
    if m != 0 && y != 0 then
      match mkMonthStart y m with
      | none => (Except.error (Err.validation "date value out of range"), db)
      | some s =>
        match mkMonthStart (if m == 12 then y + 1 else y)
            (if m == 12 then 1 else m + 1) with
        | none =>
          (Except.error (Err.validation "date value out of range"), db)
        | some e =>
          (Except.ok (db.attendance.filter (fun a =>
              a.user_id == uid && PyDate.leb s a.date && PyDate.ltb a.date e)),
            db)
    else
      (Except.ok (db.attendance.filter (fun a => a.user_id == uid)), db)
  | _, _ =>
    (Except.ok (db.attendance.filter (fun a => a.user_id == uid)), db)

/-- src/main.py `to_object_id`: `ObjectId(id_str)` accepts exactly a
24-character hexadecimal string (case-insensitive, normalised to lower
case); anything else raises and becomes a 400 "Invalid ID format". -/
def validOid (s : String) : Bool :=
  s.length == 24 && s.toList.all (fun c =>
    c.isDigit || ('a' ≤ c && c ≤ 'f') || ('A' ≤ c && c ≤ 'F'))

/-- Lower-casing of one hexadecimal digit, the normalisation ObjectId
parsing performs (after validation only hex digits occur). -/
def lowerHexChar (c : Char) : Char :=
  if c == 'A' then 'a' else if c == 'B' then 'b' else if c == 'C' then 'c'
  else if c == 'D' then 'd' else if c == 'E' then 'e'
  else if c == 'F' then 'f' else c

/-- The canonical (lower-case) form of a hexadecimal ObjectId string. -/
def oidNorm (s : String) : String :=
  String.mk (s.data.map lowerHexChar)

/-- The parse underlying `to_object_id`, returning the normalised id. -/
def to_object_id (s : String) : Except Err String :=
  if validOid s then Except.ok (oidNorm s)
  else Except.error (Err.http 400 "Invalid ID format")

/-- `update_one` on the leaverequest collection with
`$set status, approver_id` (no upsert): rewrites the first document whose
`_id` matches, and does nothing when none does. -/
def setFirstLeave (l : List LeaveDoc) (oid approver status : String) :
    List LeaveDoc :=
  match l with
  | [] => []
  | lv :: rest =>
    if lv.id == oid then
      { lv with status := status, approver_id := some approver } :: rest
    else lv :: setFirstLeave rest oid approver status

/-- src/main.py `approve_leave`: parses the id (400 on a malformed one),
then unconditionally `$set`s status and approver on the first matching
record; no existence check, no status-value check, no pending check. -/
def approve_leave (db : DB) (leave_id approver_id status : String) :
    Except Err Bool × DB :=
  match to_object_id leave_id with
  | Except.error e => (Except.error e, db)
  | Except.ok oid =>
    (Except.ok true,
      { db with leaves := setFirstLeave db.leaves oid approver_id status })

/-- src/main.py `generate_payslip`: 400 "Salary structure not defined" when
the profile is missing or has no salary; otherwise sums the four earning
fields into gross, subtracts deductions for net, and persists (via the
spec-modelled adapter) a Payroll document — whose pydantic model validates
1 <= month <= 12 and 2000 <= year <= 2200, raising a ValidationError
otherwise (src/schemas.py lines 84-85). -/
def generate_payslip (db : DB) (uid : String) (month year : Int) :
    Except Err (String × Int × Int) × DB :=
  match findEmployeeByUser db uid with
  | none => (Except.error (Err.http 400 "Salary structure not defined"), db)
  | some emp =>
    match emp.salary with
    | none => (Except.error (Err.http 400 "Salary structure not defined"), db)
    | some sal =>
      let gross := sal.basic + sal.hra + sal.special_allowance +
        sal.other_earnings
      let net := gross - sal.deductions
      if 1 ≤ month ∧ month ≤ 12 ∧ 2000 ≤ year ∧ year ≤ 2200 then
        let pid := freshId db
        let slip : PayrollDoc :=
          { id := pid, user_id := uid, month := month, year := year,
            earnings :=
              [⟨"Basic", sal.basic⟩, ⟨"HRA", sal.hra⟩,
               ⟨"Special Allowance", sal.special_allowance⟩,
               ⟨"Other Earnings", sal.other_earnings⟩],
            deductions := [⟨"Deductions", sal.deductions⟩],
            gross := gross, net := net, generated_by := none,
            status := "generated" }
        (Except.ok (pid, gross, net),
          { db with payrolls := db.payrolls ++ [slip],
                    nextOid := db.nextOid + 1 })
      else
        (Except.error (Err.validation "month or year out of range"), db)

/-- Equality of request outcomes is decidable, so concrete runs can be
checked by evaluation. -/
instance instDecEqExcept {ε α : Type} [DecidableEq ε] [DecidableEq α] :
    DecidableEq (Except ε α) := fun a b =>
  match a, b with
  | Except.error e, Except.error f =>
    if h : e = f then isTrue (by rw [h])
    else isFalse (by intro hc; cases hc; exact h rfl)
  | Except.error _, Except.ok _ => isFalse (by intro hc; cases hc)
  | Except.ok _, Except.error _ => isFalse (by intro hc; cases hc)
  | Except.ok x, Except.ok y =>
    if h : x = y then isTrue (by rw [h])
    else isFalse (by intro hc; cases hc; exact h rfl)

/-! Concrete states used by witnesses and counterexamples. -/

/-- The empty document store. -/
def dbEmpty : DB := ⟨[], [], [], [], [], [], 0⟩

/-- The salary structure of the spec's worked payroll example. -/
def salW : SalaryStructure := ⟨30000, 12000, 5000, 0, 3000⟩

/-- An employee profile holding `salW`. -/
def empW : EmployeeDoc := { emptyEmployee "e1" "u1" with salary := some salW }

/-- A store with exactly that one employee profile. -/
def dbPay : DB := { dbEmpty with employees := [empW] }

/-- A store with one employee profile that has no salary structure. -/
def dbNoSal : DB := { dbEmpty with employees := [emptyEmployee "e1" "u1"] }

/-! ## C1, C9, C10 — payroll generation -/

/-- C1: for every employee with a stored salary structure (and a request
passing the Payroll model's month/year validation), generate_payslip
computes gross as the sum of the four earning fields and net as gross minus
deductions, and persists one payslip with exactly the four earning line
items Basic, HRA, Special Allowance, Other Earnings, the single deduction
line item Deductions, and status "generated". -/
theorem generate_payslip_correct (db : DB) (uid : String) (month year : Int)
    (emp : EmployeeDoc) (sal : SalaryStructure)
    (hemp : findEmployeeByUser db uid = some emp)
    (hsal : emp.salary = some sal)
    (hm1 : 1 ≤ month) (hm2 : month ≤ 12)
    (hy1 : 2000 ≤ year) (hy2 : year ≤ 2200) :
    generate_payslip db uid month year =
      (Except.ok (freshId db,
          sal.basic + sal.hra + sal.special_allowance + sal.other_earnings,
          sal.basic + sal.hra + sal.special_allowance + sal.other_earnings
            - sal.deductions),
        { db with
            payrolls := db.payrolls ++
              [{ id := freshId db, user_id := uid, month := month,
                 year := year,
                 earnings :=
                   [⟨"Basic", sal.basic⟩, ⟨"HRA", sal.hra⟩,
                    ⟨"Special Allowance", sal.special_allowance⟩,
                    ⟨"Other Earnings", sal.other_earnings⟩],
                 deductions := [⟨"Deductions", sal.deductions⟩],
                 gross := sal.basic + sal.hra + sal.special_allowance +
                   sal.other_earnings,
                 net := sal.basic + sal.hra + sal.special_allowance +
                   sal.other_earnings - sal.deductions,
                 generated_by := none, status := "generated" }],
            nextOid := db.nextOid + 1 }) := by
  simp only [generate_payslip, hemp, hsal]
  simp [hm1, hm2, hy1, hy2]

/-- Witness for C1 at the spec's worked example: basic=30000, hra=12000,
special_allowance=5000, other_earnings=0, deductions=3000 gives gross=47000
and net=44000, with 4 earning items, 1 deduction item and status
"generated" on the persisted slip. -/
theorem generate_payslip_correct_witness :
    (generate_payslip dbPay "u1" 5 2024).1 =
        Except.ok ("oid0", (47000 : Int), (44000 : Int)) ∧
      ((generate_payslip dbPay "u1" 5 2024).2.payrolls.map (fun p =>
          (p.earnings.length, p.deductions.length, p.status))) =
        [(4, 1, "generated")] := by
  have h := generate_payslip_correct dbPay "u1" 5 2024 empW salW rfl rfl
    (by decide) (by decide) (by decide) (by decide)
  rw [h]
  refine ⟨?_, ?_⟩ <;> decide

/-- C9: generate_payslip fails with the 400 "Salary structure not defined"
error and leaves the store unchanged whenever no employee profile exists
for the user or the profile found has no salary structure. -/
theorem generate_payslip_missing_salary (db : DB) (uid : String)
    (month year : Int)
    (h : findEmployeeByUser db uid = none ∨
      ∃ emp, findEmployeeByUser db uid = some emp ∧ emp.salary = none) :
    generate_payslip db uid month year =
      (Except.error (Err.http 400 "Salary structure not defined"), db) := by
  rcases h with h | ⟨emp, hemp, hsal⟩
  · simp only [generate_payslip, h]
  · simp only [generate_payslip, hemp, hsal]

/-- Witness for C9: a profile without a salary structure is rejected with
the 400 error and the state is unchanged. -/
theorem generate_payslip_missing_salary_witness :
    generate_payslip dbNoSal "u1" 5 2024 =
      (Except.error (Err.http 400 "Salary structure not defined"), dbNoSal) :=
  generate_payslip_missing_salary dbNoSal "u1" 5 2024
    (Or.inr ⟨emptyEmployee "e1" "u1", rfl, rfl⟩)

/-- C10: when month is outside 1..12 or year outside 2000..2200, the
Payroll model's validation fails, the call raises, and no payslip is
persisted — the store is returned unchanged (even when the employee does
have a salary structure; with no profile or salary the earlier 400 fires,
still an error with the store unchanged). -/
theorem generate_payslip_rejects_bad_month_year (db : DB) (uid : String)
    (month year : Int)
    (h : ¬(1 ≤ month ∧ month ≤ 12 ∧ 2000 ≤ year ∧ year ≤ 2200)) :
    ∃ e, generate_payslip db uid month year = (Except.error e, db) := by
  cases hemp : findEmployeeByUser db uid with
  | none =>
    exact ⟨Err.http 400 "Salary structure not defined",
      by simp only [generate_payslip, hemp]⟩
  | some emp =>
    cases hsal : emp.salary with
    | none =>
      exact ⟨Err.http 400 "Salary structure not defined",
        by simp only [generate_payslip, hemp, hsal]⟩
    | some sal =>
      exact ⟨Err.validation "month or year out of range",
        by simp [generate_payslip, hemp, hsal, h]⟩

/-- Witness for C10: month 13 is rejected with an error and an unchanged
store even though the employee has a valid salary structure. -/
theorem generate_payslip_rejects_bad_month_year_witness :
    ∃ e, generate_payslip dbPay "u1" 13 2024 = (Except.error e, dbPay) :=
  generate_payslip_rejects_bad_month_year dbPay "u1" 13 2024 (by decide)

/-! ## C3, C5 — login error handling and user creation -/

/-- A concrete user for login witnesses. -/
def userA : UserDoc := ⟨"u1", "Alice", "alice@example.com", "employee", "pw1", true⟩

/-- A store holding exactly `userA`. -/
def dbAuth : DB := { dbEmpty with users := [userA] }

/-- C3: login fails with the 401 "Invalid credentials" error and stores no
session exactly when no user record matches the email or the stored
credential of the matching user differs from the supplied password;
otherwise it succeeds, storing one session and returning the token, the
user's role, name and id. -/
theorem login_auth_spec (db : DB) (email password token : String) (now : Int) :
    (findUserByEmail db email = none →
      login db email password token now =
        (Except.error (Err.http 401 "Invalid credentials"), db)) ∧
    (∀ u, findUserByEmail db email = some u → u.password_hash ≠ password →
      login db email password token now =
        (Except.error (Err.http 401 "Invalid credentials"), db)) ∧
    (∀ u, findUserByEmail db email = some u → u.password_hash = password →
      login db email password token now =
        (Except.ok ⟨token, u.role, u.name, u.id⟩,
          { db with sessions := db.sessions ++ [⟨u.id, token, now + 604800⟩] })) := by
  refine ⟨fun h => ?_, fun u hu hpw => ?_, fun u hu hpw => ?_⟩
  · simp only [login, h]
  · simp only [login, hu, if_pos hpw]
  · simp only [login, hu, hpw]
    simp

/-- Witness for C3: a wrong password is rejected with 401 and no session is
stored; the right password logs in and returns role, name and user id. -/
theorem login_auth_spec_witness :
    login dbAuth "alice@example.com" "wrong" "tok1" 0 =
        (Except.error (Err.http 401 "Invalid credentials"), dbAuth) ∧
      login dbAuth "alice@example.com" "pw1" "tok1" 0 =
        (Except.ok ⟨"tok1", "employee", "Alice", "u1"⟩,
          { dbAuth with sessions := [⟨"u1", "tok1", 604800⟩] }) := by
  constructor
  · exact (login_auth_spec dbAuth "alice@example.com" "wrong" "tok1" 0).2.1
      userA rfl (by decide)
  · have h := (login_auth_spec dbAuth "alice@example.com" "pw1" "tok1" 0).2.2
      userA rfl rfl
    rw [h]
    decide

/-- C5: create_user rejects an already-present email with the 400 "Email
already exists" error and writes nothing; otherwise it appends exactly the
new user record and, exactly when the requested role is "employee", exactly
one employee profile whose user reference is the new user's id. -/
theorem create_user_spec (db : DB) (name email role password : String) :
    ((∃ u, findUserByEmail db email = some u) →
      create_user db name email role password =
        (Except.error (Err.http 400 "Email already exists"), db)) ∧
    (findUserByEmail db email = none →
      ∃ uid db2, create_user db name email role password = (Except.ok uid, db2) ∧
        db2.users = db.users ++ [⟨uid, name, email, role, password, true⟩] ∧
        (role = "employee" →
          ∃ e, db2.employees = db.employees ++ [e] ∧ e.user_id = uid) ∧
        (role ≠ "employee" → db2.employees = db.employees) ∧
        db2.sessions = db.sessions ∧ db2.attendance = db.attendance ∧
        db2.leaves = db.leaves ∧ db2.payrolls = db.payrolls) := by
  constructor
  · rintro ⟨u, hu⟩
    simp only [create_user, hu, Option.isSome_some, if_pos]
  · intro h
    by_cases hrole : role = "employee"
    · subst hrole
      refine ⟨freshId db,
        { db with
            users := db.users ++
              [⟨freshId db, name, email, "employee", password, true⟩],
            employees := db.employees ++
              [emptyEmployee ("oid" ++ toString (db.nextOid + 1)) (freshId db)],
            nextOid := db.nextOid + 1 + 1 }, ?_, rfl, ?_, ?_, rfl, rfl, rfl, rfl⟩
      · simp only [create_user, h, Option.isSome_none, Bool.false_eq_true,
          if_false]
        rfl
      · intro
        exact ⟨_, rfl, rfl⟩
      · intro hc
        exact absurd rfl hc
    · refine ⟨freshId db,
        { db with
            users := db.users ++ [⟨freshId db, name, email, role, password, true⟩],
            nextOid := db.nextOid + 1 }, ?_, rfl, ?_, ?_, rfl, rfl, rfl, rfl⟩
      · have hb : (role == "employee") = false := by
          simp [hrole]
        simp only [create_user, h, Option.isSome_none, Bool.false_eq_true,
          if_false, hb]
      · intro hc
        exact absurd hc hrole
      · intro
        rfl

/-- Witness for C5: creating an employee-role user with a fresh email
appends the user and one profile referencing it; repeating the email is
rejected with 400 and leaves the store unchanged. -/
theorem create_user_spec_witness :
    (∃ uid db2,
      create_user dbEmpty "Bob" "bob@example.com" "employee" "pw" =
          (Except.ok uid, db2) ∧
        db2.users = [⟨uid, "Bob", "bob@example.com", "employee", "pw", true⟩] ∧
        db2.employees.map (fun e => e.user_id) = [uid]) ∧
      create_user dbAuth "Eve" "alice@example.com" "superadmin" "pw" =
        (Except.error (Err.http 400 "Email already exists"), dbAuth) := by
  constructor
  · obtain ⟨uid, db2, hrun, husers, hemp, -, -, -, -, -⟩ :=
      (create_user_spec dbEmpty "Bob" "bob@example.com" "employee" "pw").2 rfl
    obtain ⟨e, hemps, hid⟩ := hemp rfl
    exact ⟨uid, db2, hrun, husers, by simp [hemps, hid, dbEmpty]⟩
  · exact (create_user_spec dbAuth "Eve" "alice@example.com" "superadmin"
      "pw").1 ⟨userA, rfl⟩

/-! ## C2 — login followed by token resolution -/

/-- In a list whose images under `f` have no duplicates, searching for the
image of a member finds exactly that member. -/
theorem find?_key_of_mem {α β : Type} [DecidableEq β] (f : α → β) :
    ∀ (l : List α) (u : α), u ∈ l → (l.map f).Nodup →
      l.find? (fun x => f x == f u) = some u := by
  intro l
  induction l with
  | nil => intro u h; cases h
  | cons a t ih =>
    intro u hmem hnd
    rw [List.map_cons, List.nodup_cons] at hnd
    rcases List.mem_cons.mp hmem with rfl | hmem2
    · exact List.find?_cons_of_pos _ (by simp)
    · have hne : f a ≠ f u := by
        intro he
        exact hnd.1 (he ▸ List.mem_map_of_mem f hmem2)
    -- the head does not match, so the search continues in the tail
      rw [List.find?_cons_of_neg _ (by simp [hne])]
      exact ih u hmem2 hnd.2

/-- C2: whenever login succeeds — the issued token being fresh (it appears
in no stored session) and nonempty, and user ids being unique as the store
guarantees — resolving the returned token with get_user_by_token yields
exactly the user that logged in. -/
theorem login_then_resolve (db : DB) (email password token : String)
    (now : Int) (resp : LoginResponse) (db2 : DB)
    (hrun : login db email password token now = (Except.ok resp, db2))
    (htok : token ≠ "")
    (hfresh : ∀ s ∈ db.sessions, s.token ≠ token)
    (hids : (db.users.map (fun u => u.id)).Nodup) :
    ∃ u, findUserByEmail db email = some u ∧ resp.user_id = u.id ∧
      get_user_by_token db2 resp.token = some u := by
  cases hfind : findUserByEmail db email with
  | none =>
    simp only [login, hfind] at hrun
    simp at hrun
  | some u =>
    by_cases hpw : u.password_hash = password
    · have hlog : login db email password token now =
          (Except.ok ⟨token, u.role, u.name, u.id⟩,
            { db with
                sessions := db.sessions ++ [⟨u.id, token, now + 604800⟩] }) := by
        simp only [login, hfind]
        rw [if_neg (fun hc => hc hpw)]
      rw [hlog] at hrun
      injection hrun with h1 h2
      injection h1 with h1
      subst h1
      subst h2
      refine ⟨u, rfl, rfl, ?_⟩
      have hbt : (token == "") = false := by
        simp [htok]
      have hsess : findSessionByToken
          { db with sessions := db.sessions ++ [⟨u.id, token, now + 604800⟩] }
          token = some ⟨u.id, token, now + 604800⟩ := by
        unfold findSessionByToken
        show (db.sessions ++ [(⟨u.id, token, now + 604800⟩ : SessionDoc)]).find?
            (fun s => s.token == token) = some ⟨u.id, token, now + 604800⟩
        rw [List.find?_append]
        have hnone : db.sessions.find? (fun s => s.token == token) = none :=
          List.find?_eq_none.mpr (fun s hs => by simp [hfresh s hs])
        rw [hnone]
        simp
      simp only [get_user_by_token, hbt, Bool.false_eq_true, if_false, hsess]
      unfold findUserById
      show db.users.find? (fun x => x.id == u.id) = some u
      exact find?_key_of_mem (fun x => x.id) db.users u
        (List.mem_of_find?_eq_some hfind) hids
    · simp only [login, hfind] at hrun
      rw [if_pos hpw] at hrun
      simp at hrun

/-- A fresh store with one user, used to run login followed by resolve. -/
def dbAuth2 : DB := { dbEmpty with users := [userA] }

/-- Witness for C2: on a concrete store, logging in and resolving the
returned token gives back the logged-in user. -/
theorem login_then_resolve_witness :
    ∃ u, findUserByEmail dbAuth2 "alice@example.com" = some u ∧
      ("tok9" : String) ≠ "" ∧
      get_user_by_token (login dbAuth2 "alice@example.com" "pw1" "tok9" 0).2
          "tok9" = some u := by
  obtain ⟨u, hfind, -, hres⟩ := login_then_resolve dbAuth2 "alice@example.com"
    "pw1" "tok9" 0 ⟨"tok9", "employee", "Alice", "u1"⟩
    (login dbAuth2 "alice@example.com" "pw1" "tok9" 0).2
    (by decide) (by decide) (by intro s hs; cases hs) (by decide)
  exact ⟨u, hfind, by decide, hres⟩

/-! ## C4 — token resolution -/

/-- A user referenced by the sessions below. -/
def userB : UserDoc := ⟨"u1", "Bea", "bea@example.com", "employee", "pw", true⟩

/-- A store holding a session whose token is the empty string and whose user
exists: both lookups would hit, yet resolution returns none. -/
def dbTok : DB :=
  { dbEmpty with users := [userB], sessions := [⟨"u1", "", 0⟩] }

/-- A store holding an already-expired session (negative expires_at) with a
nonempty token and an existing user. -/
def dbTokExp : DB :=
  { dbEmpty with users := [userB], sessions := [⟨"u1", "t1", -1000⟩] }

/-- Counterexample to C4 as stated: for the empty token on a store where the
session lookup and the user lookup both hit, get_user_by_token still
returns none, so "returns none exactly when the session lookup misses or
the user lookup misses" is false at this input. -/
theorem get_user_by_token_empty_counterexample :
    get_user_by_token dbTok "" = none ∧
      findSessionByToken dbTok "" = some ⟨"u1", "", 0⟩ ∧
      findUserById dbTok "u1" = some userB := by
  refine ⟨rfl, ?_, ?_⟩ <;> decide

/-- C4 amended: for a nonempty token, resolution returns none exactly when
the session lookup by token misses or the user lookup by the session's user
reference misses, and the result never depends on any session's expires_at
(no expiry check); the empty token always resolves to none. -/
theorem get_user_by_token_spec (db : DB) (token : String) :
    get_user_by_token db "" = none ∧
    (token ≠ "" →
      ((get_user_by_token db token = none ↔
          findSessionByToken db token = none ∨
          ∃ s, findSessionByToken db token = some s ∧
            findUserById db s.user_id = none) ∧
        ∀ s, findSessionByToken db token = some s →
          get_user_by_token db token = findUserById db s.user_id)) ∧
    ∀ f : SessionDoc → Int,
      get_user_by_token
        { db with
            sessions := db.sessions.map (fun s => { s with expires_at := f s }) }
        token = get_user_by_token db token := by
  refine ⟨rfl, fun htok => ?_, fun f => ?_⟩
  · have hbt : (token == "") = false := by
      simp [htok]
    constructor
    · cases hs : findSessionByToken db token with
      | none =>
        simp only [get_user_by_token, hbt, Bool.false_eq_true, if_false, hs]
        simp
      | some s =>
        simp only [get_user_by_token, hbt, Bool.false_eq_true, if_false, hs]
        constructor
        · intro h
          exact Or.inr ⟨s, rfl, h⟩
        · rintro (h | ⟨s2, hs2, hu2⟩)
          · cases h
          · cases hs2
            exact hu2
    · intro s hs
      simp only [get_user_by_token, hbt, Bool.false_eq_true, if_false, hs]
  · by_cases hbt : token = ""
    · subst hbt
      rfl
    · have hb : (token == "") = false := by
        simp [hbt]
      have hmap : findSessionByToken
          { db with
              sessions := db.sessions.map (fun s => { s with expires_at := f s }) }
          token = (findSessionByToken db token).map
            (fun s => { s with expires_at := f s }) := by
        unfold findSessionByToken
        show (db.sessions.map (fun s => { s with expires_at := f s })).find?
            (fun s => s.token == token) = _
        induction db.sessions with
        | nil => rfl
        | cons a t ih =>
          by_cases ha : a.token = token
          · simp [List.find?_cons, ha]
          · simp only [List.map_cons, List.find?_cons]
            have hc : ((⟨a.user_id, a.token, f a⟩ : SessionDoc).token == token) =
                false := by
              simp [ha]
            have hc2 : (a.token == token) = false := by
              simp [ha]
            simp only [hc, hc2]
            simpa using ih
      simp only [get_user_by_token, hb, Bool.false_eq_true, if_false, hmap]
      cases findSessionByToken db token with
      | none => rfl
      | some s => rfl

/-- Witness for C4 amended: a nonempty token whose session has already
expired (negative expires_at) still resolves to its user. -/
theorem get_user_by_token_spec_witness :
    get_user_by_token dbTokExp "t1" = some userB := by
  have h := ((get_user_by_token_spec dbTokExp "t1").2.1 (by decide)).2
    ⟨"u1", "t1", -1000⟩ (by decide)
  rw [h]
  decide

/-! ## C8 — leave approval -/

/-- When no record carries the id, the leave update rewrites nothing. -/
theorem setFirstLeave_no_match (oid approver status : String) :
    ∀ l : List LeaveDoc, (∀ lv ∈ l, lv.id ≠ oid) →
      setFirstLeave l oid approver status = l := by
  intro l
  induction l with
  | nil => intro _; rfl
  | cons a t ih =>
    intro h
    have ha : (a.id == oid) = false := by
      simp [h a (List.mem_cons_self a t)]
    simp only [setFirstLeave, ha, Bool.false_eq_true, if_false, List.cons.injEq,
      true_and]
    exact ih (fun lv hlv => h lv (List.mem_cons_of_mem a hlv))

/-- The first record carrying the id gets exactly its status and approver
fields rewritten. -/
theorem setFirstLeave_find (oid approver status : String) :
    ∀ l : List LeaveDoc, ∀ lv, l.find? (fun x => x.id == oid) = some lv →
      (setFirstLeave l oid approver status).find? (fun x => x.id == oid) =
        some { lv with status := status, approver_id := some approver } := by
  intro l
  induction l with
  | nil => intro lv h; cases h
  | cons a t ih =>
    intro lv h
    by_cases ha : a.id = oid
    · rw [List.find?_cons_of_pos _ (by simp [ha])] at h
      cases h
      have hb : (a.id == oid) = true := by
        simp [ha]
      simp only [setFirstLeave, hb, if_true]
      exact List.find?_cons_of_pos _ (by simp [ha])
    · rw [List.find?_cons_of_neg _ (by simp [ha])] at h
      have hb : (a.id == oid) = false := by
        simp [ha]
      simp only [setFirstLeave, hb, Bool.false_eq_true, if_false]
      rw [List.find?_cons_of_neg _ (by simp [ha])]
      exact ih lv h

/-- Counterexample to C8 as stated: a leave_id that is not a well-formed
ObjectId string makes approve_leave fail with the 400 "Invalid ID format"
error instead of completing successfully. -/
theorem approve_leave_bad_id_counterexample :
    approve_leave dbEmpty "not-a-valid-object-id-" "a1" "approved" =
      (Except.error (Err.http 400 "Invalid ID format"), dbEmpty) := by
  decide

/-- C8 amended: for every leave_id that parses as an ObjectId (24
hexadecimal characters), approve_leave reports success for any status
string and any approver, with no check that the record exists or was
pending: it rewrites status and approver of the first record carrying the
id, leaves every other collection untouched, and is a no-op on the whole
store when no record carries the id; a leave_id that does not parse fails
with the 400 "Invalid ID format" error. -/
theorem approve_leave_spec (db : DB) (leave_id approver_id status : String) :
    (validOid leave_id = true →
      ∃ db2, approve_leave db leave_id approver_id status =
          (Except.ok true, db2) ∧
        db2.users = db.users ∧ db2.sessions = db.sessions ∧
        db2.employees = db.employees ∧ db2.attendance = db.attendance ∧
        db2.payrolls = db.payrolls ∧
        ((∀ lv ∈ db.leaves, lv.id ≠ oidNorm leave_id) → db2 = db) ∧
        (∀ lv, db.leaves.find? (fun x => x.id == oidNorm leave_id) = some lv →
          db2.leaves.find? (fun x => x.id == oidNorm leave_id) =
            some { lv with status := status,
                           approver_id := some approver_id })) ∧
    (validOid leave_id = false →
      approve_leave db leave_id approver_id status =
        (Except.error (Err.http 400 "Invalid ID format"), db)) := by
  constructor
  · intro hv
    refine ⟨{ db with leaves :=
        (setFirstLeave db.leaves (oidNorm leave_id) approver_id status) },
      ?_, rfl, rfl, rfl, rfl, rfl, ?_, ?_⟩
    · simp only [approve_leave, to_object_id, hv, if_true]
    · intro h
      have : setFirstLeave db.leaves (oidNorm leave_id) approver_id status =
          db.leaves := setFirstLeave_no_match _ _ _ db.leaves h
      rw [this]
    · intro lv hlv
      exact setFirstLeave_find _ _ _ db.leaves lv hlv
  · intro hv
    simp only [approve_leave, to_object_id, hv, Bool.false_eq_true, if_false]

/-- A store holding one pending leave request. -/
def dbLeave : DB :=
  { dbEmpty with leaves :=
      [⟨"aaaaaaaaaaaaaaaaaaaaaaaa", "u1", ⟨2024, 3, 1⟩, ⟨2024, 3, 2⟩,
        "sick", none, "pending", none⟩] }

/-- Witness for C8 amended: a well-formed id whose record exists gets
status and approver rewritten (with an unrecognized status value) and
success reported; the same id on a store without the record is a no-op
that still reports success. -/
theorem approve_leave_spec_witness :
    (∃ db2, approve_leave dbLeave "AAAAAAAAAAAAAAAAAAAAAAAA" "boss" "whatever" =
        (Except.ok true, db2) ∧
      db2.leaves.find? (fun x => x.id == "aaaaaaaaaaaaaaaaaaaaaaaa") =
        some ⟨"aaaaaaaaaaaaaaaaaaaaaaaa", "u1", ⟨2024, 3, 1⟩, ⟨2024, 3, 2⟩,
          "sick", none, "whatever", some "boss"⟩) ∧
    approve_leave dbEmpty "aaaaaaaaaaaaaaaaaaaaaaaa" "boss" "approved" =
      (Except.ok true, dbEmpty) := by
  constructor
  · obtain ⟨db2, hrun, -, -, -, -, -, -, hfind⟩ :=
      (approve_leave_spec dbLeave "AAAAAAAAAAAAAAAAAAAAAAAA" "boss"
        "whatever").1 (by decide)
    refine ⟨db2, hrun, ?_⟩
    have h := hfind ⟨"aaaaaaaaaaaaaaaaaaaaaaaa", "u1", ⟨2024, 3, 1⟩,
      ⟨2024, 3, 2⟩, "sick", none, "pending", none⟩ (by decide)
    rw [show oidNorm "AAAAAAAAAAAAAAAAAAAAAAAA" =
      "aaaaaaaaaaaaaaaaaaaaaaaa" from by decide] at h
    exact h
  · obtain ⟨db2, hrun, -, -, -, -, -, hnoop, -⟩ :=
      (approve_leave_spec dbEmpty "aaaaaaaaaaaaaaaaaaaaaaaa" "boss"
        "approved").1 (by decide)
    rw [hnoop (by intro lv hlv; cases hlv)] at hrun
    exact hrun

/-! ## C6 — attendance month filter -/

/-- A store with one attendance record dated 2024-05-05 for user "u". -/
def dbAtt : DB :=
  { dbEmpty with attendance :=
      [⟨"a1", "u", ⟨2024, 5, 5⟩, "present", none, none⟩] }

/-- Counterexample to C6 as stated: with month=2 and year=0 (a year, both
parameters supplied), the record dated 2024-05-05 is returned even though
its date is not inside the claimed range [0000-02-01, 0000-03-01) — the
Python truthiness guard `if month and year` treats year 0 as absent and
applies no date filter at all. -/
theorem get_attendance_year_zero_counterexample :
    get_attendance dbAtt "u" (some 2) (some 0) =
        (Except.ok [⟨"a1", "u", ⟨2024, 5, 5⟩, "present", none, none⟩], dbAtt) ∧
      PyDate.ltb ⟨2024, 5, 5⟩ ⟨0, 3, 1⟩ = false := by
  constructor <;> decide

/-- C6 amended: for month 1..12 and year 1..9999 — excluding the pair
month=12, year=9999, whose end-of-range datetime construction fails — the
listing returns exactly the user's records with date in the half-open range
[year-month-01, next-month-01), December rolling into January of year+1;
when year=0 is supplied the truthiness guard drops the date filter and all
the user's records are returned. -/
theorem get_attendance_month_filter (db : DB) (uid : String) (m y : Int)
    (hm1 : 1 ≤ m) (hm2 : m ≤ 12) (hy1 : 1 ≤ y) (hy2 : y ≤ 9999)
    (hedge : ¬(m = 12 ∧ y = 9999)) :
    get_attendance db uid (some m) (some y) =
        (Except.ok (db.attendance.filter (fun a =>
            a.user_id == uid && PyDate.leb ⟨y, m, 1⟩ a.date &&
              PyDate.ltb a.date
                (if m == 12 then ⟨y + 1, 1, 1⟩ else ⟨y, m + 1, 1⟩))), db) ∧
      get_attendance db uid (some m) (some 0) =
        (Except.ok (db.attendance.filter (fun a => a.user_id == uid)), db) := by
  have hmz : (m != 0) = true := by
    simp only [bne_iff_ne, ne_eq]
    omega
  constructor
  · have hyz : (y != 0) = true := by
      simp only [bne_iff_ne, ne_eq]
      omega
    have hstart : mkMonthStart y m = some ⟨y, m, 1⟩ := by
      unfold mkMonthStart
      rw [if_pos ⟨hy1, hy2, hm1, hm2⟩]
    by_cases h12 : m = 12
    · subst h12
      have hy3 : y ≤ 9998 := by
        omega
      have hend : mkMonthStart (y + 1) 1 = some ⟨y + 1, 1, 1⟩ := by
        unfold mkMonthStart
        rw [if_pos ⟨by omega, by omega, by omega, by omega⟩]
      simp only [get_attendance, hmz, hyz, Bool.and_self, if_true, hstart]
      simp only [show ((12 : Int) == 12) = true from rfl, if_true, hend]
    · have hb12 : ((m : Int) == 12) = false := by
        simp [h12]
      have hend : mkMonthStart y (m + 1) = some ⟨y, m + 1, 1⟩ := by
        unfold mkMonthStart
        rw [if_pos ⟨hy1, hy2, by omega, by omega⟩]
      simp only [get_attendance, hmz, hyz, Bool.and_self, if_true, hstart, hb12,
        Bool.false_eq_true, if_false, hend]
  · simp only [get_attendance, hmz]
    simp

/-- Witness for C6 amended, echoing the spec's instances: month=2, year=2024
keeps exactly the records in [2024-02-01, 2024-03-01), and month=12,
year=2024 rolls the range end into 2025-01-01, on a store that also holds
records outside the ranges. -/
theorem get_attendance_month_filter_witness :
    get_attendance
        { dbEmpty with attendance :=
            [⟨"a1", "u", ⟨2024, 2, 15⟩, "present", none, none⟩,
             ⟨"a2", "u", ⟨2024, 5, 5⟩, "present", none, none⟩,
             ⟨"a3", "u", ⟨2024, 12, 31⟩, "leave", none, none⟩] } "u"
        (some 2) (some 2024) =
      (Except.ok [⟨"a1", "u", ⟨2024, 2, 15⟩, "present", none, none⟩],
        { dbEmpty with attendance :=
            [⟨"a1", "u", ⟨2024, 2, 15⟩, "present", none, none⟩,
             ⟨"a2", "u", ⟨2024, 5, 5⟩, "present", none, none⟩,
             ⟨"a3", "u", ⟨2024, 12, 31⟩, "leave", none, none⟩] }) ∧
    get_attendance
        { dbEmpty with attendance :=
            [⟨"a1", "u", ⟨2024, 2, 15⟩, "present", none, none⟩,
             ⟨"a2", "u", ⟨2024, 5, 5⟩, "present", none, none⟩,
             ⟨"a3", "u", ⟨2024, 12, 31⟩, "leave", none, none⟩] } "u"
        (some 12) (some 2024) =
      (Except.ok [⟨"a3", "u", ⟨2024, 12, 31⟩, "leave", none, none⟩],
        { dbEmpty with attendance :=
            [⟨"a1", "u", ⟨2024, 2, 15⟩, "present", none, none⟩,
             ⟨"a2", "u", ⟨2024, 5, 5⟩, "present", none, none⟩,
             ⟨"a3", "u", ⟨2024, 12, 31⟩, "leave", none, none⟩] }) := by
  constructor
  · have h := (get_attendance_month_filter
      { dbEmpty with attendance :=
          [⟨"a1", "u", ⟨2024, 2, 15⟩, "present", none, none⟩,
           ⟨"a2", "u", ⟨2024, 5, 5⟩, "present", none, none⟩,
           ⟨"a3", "u", ⟨2024, 12, 31⟩, "leave", none, none⟩] } "u" 2 2024
      (by decide) (by decide) (by decide) (by decide) (by decide)).1
    rw [h]
    decide
  · have h := (get_attendance_month_filter
      { dbEmpty with attendance :=
          [⟨"a1", "u", ⟨2024, 2, 15⟩, "present", none, none⟩,
           ⟨"a2", "u", ⟨2024, 5, 5⟩, "present", none, none⟩,
           ⟨"a3", "u", ⟨2024, 12, 31⟩, "leave", none, none⟩] } "u" 12 2024
      (by decide) (by decide) (by decide) (by decide) (by decide)).1
    rw [h]
    decide

/-! ## C7 — partial employee updates -/

/-- Number of employee profiles stored for a user. -/
def countMatching (db : DB) (uid : String) : Nat :=
  (db.employees.filter (fun e => e.user_id == uid)).length

/-- Every non-null supplied field of the request is present with its value
on the document. -/
def hasFields (r : EmployeeUpdateRequest) (e : EmployeeDoc) : Prop :=
  (∀ v, r.designation = some v → e.designation = some v) ∧
  (∀ v, r.department_id = some v → e.department_id = some v) ∧
  (∀ v, r.work_email = some v → e.work_email = some v) ∧
  (∀ v, r.phone = some v → e.phone = some v) ∧
  (∀ v, r.address = some v → e.address = some v) ∧
  (∀ v, r.bank = some v → e.bank = some v) ∧
  (∀ v, r.statutory = some v → e.statutory = some v) ∧
  (∀ v, r.salary = some v → e.salary = some v)

/-- Every field the request does not supply keeps its stored value. -/
def framePreserved (r : EmployeeUpdateRequest) (e0 e1 : EmployeeDoc) : Prop :=
  (r.designation = none → e1.designation = e0.designation) ∧
  (r.department_id = none → e1.department_id = e0.department_id) ∧
  (r.work_email = none → e1.work_email = e0.work_email) ∧
  (r.phone = none → e1.phone = e0.phone) ∧
  (r.address = none → e1.address = e0.address) ∧
  (r.bank = none → e1.bank = e0.bank) ∧
  (r.statutory = none → e1.statutory = e0.statutory) ∧
  (r.salary = none → e1.salary = e0.salary)

/-- The two requests supply disjoint non-null field sets. -/
def disjointReq (r1 r2 : EmployeeUpdateRequest) : Bool :=
  (r1.designation.isNone || r2.designation.isNone) &&
  (r1.department_id.isNone || r2.department_id.isNone) &&
  (r1.work_email.isNone || r2.work_email.isNone) &&
  (r1.phone.isNone || r2.phone.isNone) &&
  (r1.address.isNone || r2.address.isNone) &&
  (r1.bank.isNone || r2.bank.isNone) &&
  (r1.statutory.isNone || r2.statutory.isNone) &&
  (r1.salary.isNone || r2.salary.isNone)

/-- Applying a `$set` leaves exactly the supplied fields on the document. -/
theorem hasFields_applySet (r : EmployeeUpdateRequest) (e : EmployeeDoc) :
    hasFields r (applySet e r) := by
  refine ⟨?_, ?_, ?_, ?_, ?_, ?_, ?_, ?_⟩ <;> intro v h <;>
    simp [applySet, ovr, h]

/-- Applying a `$set` does not touch the fields it does not supply. -/
theorem framePreserved_applySet (r : EmployeeUpdateRequest) (e : EmployeeDoc) :
    framePreserved r e (applySet e r) := by
  refine ⟨?_, ?_, ?_, ?_, ?_, ?_, ?_, ?_⟩ <;> intro h <;>
    simp [applySet, ovr, h]

/-- Fields already present survive a later `$set` that is disjoint from
them. -/
theorem hasFields_applySet_disjoint (r r2 : EmployeeUpdateRequest)
    (e : EmployeeDoc) (hd : disjointReq r r2 = true) (h : hasFields r e) :
    hasFields r (applySet e r2) := by
  simp only [disjointReq, Bool.and_eq_true, Bool.or_eq_true,
    Option.isNone_iff_eq_none] at hd
  obtain ⟨⟨⟨⟨⟨⟨⟨d1, d2⟩, d3⟩, d4⟩, d5⟩, d6⟩, d7⟩, d8⟩ := hd
  obtain ⟨q1, q2, q3, q4, q5, q6, q7, q8⟩ := h
  refine ⟨fun v hv => ?_, fun v hv => ?_, fun v hv => ?_, fun v hv => ?_,
    fun v hv => ?_, fun v hv => ?_, fun v hv => ?_, fun v hv => ?_⟩
  · rcases d1 with hn | hn
    · rw [hv] at hn; cases hn
    · simp only [applySet, ovr, hn]
      exact q1 v hv
  · rcases d2 with hn | hn
    · rw [hv] at hn; cases hn
    · simp only [applySet, ovr, hn]
      exact q2 v hv
  · rcases d3 with hn | hn
    · rw [hv] at hn; cases hn
    · simp only [applySet, ovr, hn]
      exact q3 v hv
  · rcases d4 with hn | hn
    · rw [hv] at hn; cases hn
    · simp only [applySet, ovr, hn]
      exact q4 v hv
  · rcases d5 with hn | hn
    · rw [hv] at hn; cases hn
    · simp only [applySet, ovr, hn]
      exact q5 v hv
  · rcases d6 with hn | hn
    · rw [hv] at hn; cases hn
    · simp only [applySet, ovr, hn]
      exact q6 v hv
  · rcases d7 with hn | hn
    · rw [hv] at hn; cases hn
    · simp only [applySet, ovr, hn]
      exact q7 v hv
  · rcases d8 with hn | hn
    · rw [hv] at hn; cases hn
    · simp only [applySet, ovr, hn]
      exact q8 v hv

/-- A `$set` never changes the user reference (the update document has no
user_id key). -/
theorem applySet_user_id (e : EmployeeDoc) (r : EmployeeUpdateRequest) :
    (applySet e r).user_id = e.user_id := rfl

/-- The rewritten first match is found at the same position. -/
theorem setFirstEmployee_find (uid : String) (r : EmployeeUpdateRequest) :
    ∀ l : List EmployeeDoc,
      (setFirstEmployee l uid r).1.find? (fun e => e.user_id == uid) =
        (l.find? (fun e => e.user_id == uid)).map (fun e => applySet e r) := by
  intro l
  induction l with
  | nil => rfl
  | cons a t ih =>
    by_cases ha : a.user_id = uid
    · have hb : (a.user_id == uid) = true := by
        simp [ha]
      simp only [setFirstEmployee, hb, if_true]
      simp [List.find?_cons, applySet_user_id, hb]
    · have hb : (a.user_id == uid) = false := by
        simp [ha]
      simp only [setFirstEmployee, hb, Bool.false_eq_true, if_false]
      simpa [List.find?_cons, applySet_user_id, hb] using ih

/-- The update reports a match exactly when the search finds one. -/
theorem setFirstEmployee_flag (uid : String) (r : EmployeeUpdateRequest) :
    ∀ l : List EmployeeDoc,
      (setFirstEmployee l uid r).2 =
        (l.find? (fun e => e.user_id == uid)).isSome := by
  intro l
  induction l with
  | nil => rfl
  | cons a t ih =>
    by_cases ha : a.user_id = uid
    · have hb : (a.user_id == uid) = true := by
        simp [ha]
      simp only [setFirstEmployee, hb, if_true]
      simp [List.find?_cons, hb]
    · have hb : (a.user_id == uid) = false := by
        simp [ha]
      simp only [setFirstEmployee, hb, Bool.false_eq_true, if_false]
      simpa [List.find?_cons, hb] using ih

/-- Rewriting the first match does not change how many records match. -/
theorem setFirstEmployee_count (uid : String) (r : EmployeeUpdateRequest) :
    ∀ l : List EmployeeDoc,
      ((setFirstEmployee l uid r).1.filter (fun e => e.user_id == uid)).length =
        (l.filter (fun e => e.user_id == uid)).length := by
  intro l
  induction l with
  | nil => rfl
  | cons a t ih =>
    by_cases ha : a.user_id = uid
    · have hb : (a.user_id == uid) = true := by
        simp [ha]
      have hb2 : ((applySet a r).user_id == uid) = true := hb
      simp only [setFirstEmployee, hb, if_true, List.filter_cons, hb2, if_true,
        List.length_cons]
    · have hb : (a.user_id == uid) = false := by
        simp [ha]
      simp only [setFirstEmployee, hb, Bool.false_eq_true, if_false,
        List.filter_cons]
      exact ih

/-- A successful search witnesses a nonempty filter. -/
theorem filter_length_ne_zero_of_find {α : Type} (p : α → Bool) (l : List α)
    (x : α) (h : l.find? p = some x) : (l.filter p).length ≠ 0 := by
  have hm : x ∈ l.filter p :=
    List.mem_filter.mpr ⟨List.mem_of_find?_eq_some h, List.find?_some h⟩
  intro hl
  rw [List.length_eq_zero] at hl
  rw [hl] at hm
  cases hm

/-- C7: update_employee writes only the non-null supplied fields (a null or
omitted field keeps its stored value on the first matching profile),
creates an empty profile first when none exists for the user (one profile
afterwards, and the matching count is otherwise unchanged), and two
successive calls with disjoint non-null field sets leave both field sets
present on the single resulting profile. -/
theorem update_employee_merge (db : DB) (uid : String)
    (r r2 : EmployeeUpdateRequest) :
    (update_employee db uid r =
        (Except.ok true, (update_employee db uid r).2) ∧
      findEmployeeByUser (update_employee db uid r).2 uid =
        some (applySet ((findEmployeeByUser db uid).getD
          (emptyEmployee (freshId db) uid)) r) ∧
      framePreserved r
        ((findEmployeeByUser db uid).getD (emptyEmployee (freshId db) uid))
        (applySet ((findEmployeeByUser db uid).getD
          (emptyEmployee (freshId db) uid)) r) ∧
      hasFields r (applySet ((findEmployeeByUser db uid).getD
        (emptyEmployee (freshId db) uid)) r) ∧
      countMatching (update_employee db uid r).2 uid =
        (if countMatching db uid = 0 then 1 else countMatching db uid)) ∧
    (disjointReq r r2 = true →
      ∃ e, findEmployeeByUser
          (update_employee (update_employee db uid r).2 uid r2).2 uid =
            some e ∧
        hasFields r e ∧ hasFields r2 e ∧
        countMatching (update_employee (update_employee db uid r).2 uid r2).2
            uid =
          (if countMatching db uid = 0 then 1 else countMatching db uid)) := by
  have key : ∀ (d : DB) (q : EmployeeUpdateRequest),
      update_employee d uid q = (Except.ok true, (update_employee d uid q).2) ∧
      findEmployeeByUser (update_employee d uid q).2 uid =
        some (applySet ((findEmployeeByUser d uid).getD
          (emptyEmployee (freshId d) uid)) q) ∧
      countMatching (update_employee d uid q).2 uid =
        (if countMatching d uid = 0 then 1 else countMatching d uid) := by
    intro d q
    cases hf : findEmployeeByUser d uid with
    | some e0 =>
      have hf' : d.employees.find? (fun e => e.user_id == uid) = some e0 := hf
      have hflag : (setFirstEmployee d.employees uid q).2 = true := by
        rw [setFirstEmployee_flag, hf']
        rfl
      have hrun : update_employee d uid q = (Except.ok true,
          { d with employees := (setFirstEmployee d.employees uid q).1 }) := by
        simp only [update_employee, hf, Option.isSome_some, if_true, hflag]
      refine ⟨?_, ?_, ?_⟩
      · rw [hrun]
      · rw [hrun]
        unfold findEmployeeByUser
        show (setFirstEmployee d.employees uid q).1.find?
          (fun e => e.user_id == uid) = _
        rw [setFirstEmployee_find, hf']
        rfl
      · rw [hrun]
        unfold countMatching
        show ((setFirstEmployee d.employees uid q).1.filter
          (fun e => e.user_id == uid)).length = _
        rw [setFirstEmployee_count]
        rw [if_neg (filter_length_ne_zero_of_find _ _ e0 hf')]
    | none =>
      have hf' : d.employees.find? (fun e => e.user_id == uid) = none := hf
      have hfind1 : (d.employees ++ [emptyEmployee (freshId d) uid]).find?
          (fun e => e.user_id == uid) =
            some (emptyEmployee (freshId d) uid) := by
        rw [List.find?_append, hf']
        simp [List.find?_cons, emptyEmployee]
      have hflag : (setFirstEmployee
          (d.employees ++ [emptyEmployee (freshId d) uid]) uid q).2 = true := by
        rw [setFirstEmployee_flag, hfind1]
        rfl
      have hrun : update_employee d uid q = (Except.ok true,
          { d with
              employees := (setFirstEmployee
                (d.employees ++ [emptyEmployee (freshId d) uid]) uid q).1,
              nextOid := d.nextOid + 1 }) := by
        simp only [update_employee, hf, Option.isSome_none, Bool.false_eq_true,
          if_false, hflag, if_true]
      have hnil : d.employees.filter (fun e => e.user_id == uid) = [] :=
        List.filter_eq_nil_iff.mpr (fun a ha => by
          simpa using List.find?_eq_none.mp hf' a ha)
      refine ⟨?_, ?_, ?_⟩
      · rw [hrun]
      · rw [hrun]
        unfold findEmployeeByUser
        show (setFirstEmployee (d.employees ++ [emptyEmployee (freshId d) uid])
          uid q).1.find? (fun e => e.user_id == uid) = _
        rw [setFirstEmployee_find, hfind1]
        rfl
      · rw [hrun]
        unfold countMatching
        show ((setFirstEmployee (d.employees ++ [emptyEmployee (freshId d) uid])
          uid q).1.filter (fun e => e.user_id == uid)).length = _
        rw [setFirstEmployee_count, List.filter_append, hnil]
        simp [List.filter_cons, emptyEmployee]
  constructor
  · exact ⟨(key db r).1, (key db r).2.1, framePreserved_applySet r _,
      hasFields_applySet r _, (key db r).2.2⟩
  · intro hd
    have h1 := key db r
    have h2 := key (update_employee db uid r).2 r2
    have hgd : (findEmployeeByUser (update_employee db uid r).2 uid).getD
        (emptyEmployee (freshId (update_employee db uid r).2) uid) =
          applySet ((findEmployeeByUser db uid).getD
            (emptyEmployee (freshId db) uid)) r := by
      rw [h1.2.1]
      rfl
    rw [hgd] at h2
    refine ⟨applySet (applySet ((findEmployeeByUser db uid).getD
      (emptyEmployee (freshId db) uid)) r) r2, h2.2.1, ?_, ?_, ?_⟩
    · exact hasFields_applySet_disjoint r r2 _ hd (hasFields_applySet r _)
    · exact hasFields_applySet r2 _
    · rw [h2.2.2, h1.2.2]
      by_cases hc : countMatching db uid = 0
      · rw [if_pos hc]
        simp
      · rw [if_neg hc, if_neg hc]

/-- The request supplying only a designation. -/
def reqDes : EmployeeUpdateRequest :=
  ⟨some "Engineer", none, none, none, none, none, none, none⟩

/-- The request supplying only a phone number. -/
def reqPhone : EmployeeUpdateRequest :=
  ⟨none, none, none, some "555-1234", none, none, none, none⟩

/-- Witness for C7: starting from a store with no profile, updating with a
designation and then with a phone number yields one single profile carrying
both fields. -/
theorem update_employee_merge_witness :
    ∃ e, findEmployeeByUser
        (update_employee (update_employee dbEmpty "u7" reqDes).2 "u7"
          reqPhone).2 "u7" = some e ∧
      hasFields reqDes e ∧ hasFields reqPhone e ∧
      countMatching (update_employee (update_employee dbEmpty "u7" reqDes).2
        "u7" reqPhone).2 "u7" = 1 := by
  obtain ⟨e, hfind, hx, hy, hcount⟩ :=
    (update_employee_merge dbEmpty "u7" reqDes reqPhone).2 (by decide)
  refine ⟨e, hfind, hx, hy, ?_⟩
  rw [hcount]
  decide

end HRMS
